import Mathlib

/-!
Verification of the GS1 Barcode Syntax Engine Rust binding (`contrib/rust/lib.rs`)
against its natural-language specification.

The repository ships the Rust call surface (`GS1Encoder`) together with its
tests; the native engine behind the `extern "C"` declarations is not part of
the sources.  Components of the engine that claims depend on are therefore
modelled from the specification (their doc comments start with
`Modelled from the spec:`); the Rust wrapper functions themselves are embedded
directly from `lib.rs`.
-/

set_option maxRecDepth 10000

/-- Decides whether `needle` occurs as a contiguous run inside `hay`. -/
def hasSub (hay needle : List Char) : Bool :=
  match hay with
  | [] => needle.isEmpty
  | _ :: t => needle.isPrefixOf hay || hasSub t needle

/-- Splits a character list on a separator character; the separator is dropped. -/
def splitOnChar (sep : Char) (cs : List Char) : List (List Char) :=
  match cs with
  | [] => [[]]
  | c :: rest =>
    let r := splitOnChar sep rest
    if c == sep then [] :: r
    else
      match r with
      | [] => [[c]]
      | h :: t => (c :: h) :: t

/-- Numeric value of a decimal digit character. -/
def digitVal (c : Char) : Nat := c.toNat - '0'.toNat

/-- All characters are decimal digits. -/
def allDigits (cs : List Char) : Bool := cs.all Char.isDigit

/-- Modelled from the spec: weighted modulo-10 sum of the Check-Digit Module
(§4.2), alternating weights 3/1 starting from the rightmost digit.  The input
is the payload in reverse order (rightmost digit first); the flag records
whether the current digit receives weight 3. -/
def cdSum (weight3 : Bool) (revDigits : List Char) : Nat :=
  match revDigits with
  | [] => 0
  | c :: rest => (if weight3 then 3 else 1) * digitVal c + cdSum (!weight3) rest

/-- Modelled from the spec: `compute` of the Check-Digit Module (§4.2) — the
digit that makes the weighted sum a multiple of 10. -/
def computeCheckDigit (payload : List Char) : Nat :=
  (10 - cdSum true payload.reverse % 10) % 10

/-- Modelled from the spec: `verify` of the Check-Digit Module (§4.2) — the
trailing digit of the value must equal the check digit computed over the rest. -/
def verifyCheckDigit (v : List Char) : Bool :=
  match v.reverse with
  | [] => false
  | c :: revPayload => digitVal c == (10 - cdSum true revPayload % 10) % 10

/-- Modelled from the spec: the Digital-Link role of an AI (§3 data model). -/
inductive DLRole where
  | primaryKey
  | qualifier
  | attribute
  | notPermitted
deriving DecidableEq, Repr

/-- Modelled from the spec: one AI Dictionary entry (§3): code, display title,
fixed length (`none` for variable-length up to `maxLen`), charset restriction,
embedded check digit, repetition policy, Digital-Link role, requisite-companion
sets and mutual-exclusion groups. -/
structure AIDef where
  code : String
  title : String
  fixedLen : Option Nat
  maxLen : Nat
  numericOnly : Bool
  hasCheck : Bool
  repeatable : Bool
  dlRole : DLRole
  requisites : List (List String)
  mutexGroups : List String
deriving DecidableEq, Repr

/-- Modelled from the spec: the immutable AI Dictionary (§4.1), restricted to
the AIs exercised by the repository's tests and examples (01, 02, 10, 22, 37,
99).  Every code in this subset is two digits long. -/
def aiTable : List AIDef :=
  [ { code := "01", title := "GTIN", fixedLen := some 14, maxLen := 14,
      numericOnly := true, hasCheck := true, repeatable := false,
      dlRole := .primaryKey, requisites := [], mutexGroups := [] },
    { code := "02", title := "CONTENT", fixedLen := some 14, maxLen := 14,
      numericOnly := true, hasCheck := true, repeatable := false,
      dlRole := .attribute, requisites := [["37"]], mutexGroups := [] },
    { code := "10", title := "BATCH/LOT", fixedLen := none, maxLen := 20,
      numericOnly := false, hasCheck := false, repeatable := false,
      dlRole := .qualifier, requisites := [], mutexGroups := [] },
    { code := "22", title := "CPV", fixedLen := none, maxLen := 20,
      numericOnly := false, hasCheck := false, repeatable := false,
      dlRole := .qualifier, requisites := [], mutexGroups := [] },
    { code := "37", title := "COUNT", fixedLen := none, maxLen := 8,
      numericOnly := true, hasCheck := false, repeatable := false,
      dlRole := .attribute, requisites := [], mutexGroups := [] },
    { code := "99", title := "INTERNAL", fixedLen := none, maxLen := 30,
      numericOnly := false, hasCheck := false, repeatable := false,
      dlRole := .attribute, requisites := [], mutexGroups := [] } ]

/-- Modelled from the spec: `lookup(code)` of the AI Dictionary (§4.1). -/
def lookupAI (code : String) : Option AIDef :=
  aiTable.find? (fun d => d.code == code)

/-- Digital-Link role of an AI code; an unknown code defaults to attribute. -/
def roleOf (code : String) : DLRole :=
  match lookupAI code with
  | some d => d.dlRole
  | none => .attribute

/-- Display title of an AI code. -/
def titleOf (code : String) : String :=
  match lookupAI code with
  | some d => d.title
  | none => ""

/-- Whether an AI code denotes a variable-length value (needing a separator). -/
def isVarLen (code : String) : Bool :=
  match lookupAI code with
  | some d => d.fixedLen.isNone
  | none => true

/-- One parsed element: an (AI code, raw value) pair (§3); `unknown` marks an
element retained only because permit-unknown-AIs is enabled. -/
structure Elem where
  ai : String
  value : String
  unknown : Bool := false
deriving DecidableEq, Repr

/-- A parse error: position and length of the offending span in the original
input, and a human-readable message (§4.3). -/
structure PErr where
  pos : Nat
  len : Nat
  msg : String
deriving DecidableEq, Repr

/-- Modelled from the spec: per-value format lint driven by the AI Dictionary
(§4.3): charset restriction, maximum length, and embedded check digit. -/
def lintValue (d : AIDef) (v : List Char) (pos : Nat) : Option PErr :=
  if d.numericOnly && !(allDigits v) then
    some ⟨pos, v.length, "AI (" ++ d.code ++ "): illegal character in value"⟩
  else if d.maxLen < v.length then
    some ⟨pos, v.length, "AI (" ++ d.code ++ "): value too long"⟩
  else if d.hasCheck && !(verifyCheckDigit v) then
    some ⟨pos, v.length, "AI (" ++ d.code ++ "): incorrect check digit"⟩
  else none

/-- Modelled from the spec: the Element-String Parser for the delimited data
string form (§4.3), after the leading sentinel: longest-match dictionary
lookup on the AI code (codes are two to four digits), fixed-length values read
by exact count, variable-length values read until a separator or end of input;
unknown codes are an error unless permit-unknown-AIs (`pu`) is enabled, in
which case the element is retained as an opaque passthrough.  `pos` is the
index into the original input used for error markup; `fuel` bounds the number
of fields (any value at least the input length suffices since every step
consumes at least one character). -/
def parseElems (pu : Bool) (fuel : Nat) (pos : Nat) (cs : List Char) : Except PErr (List Elem) :=
  match fuel with
  | 0 => .error ⟨pos, 1, "internal: parser fuel exhausted"⟩
  | fuel + 1 =>
    match cs with
    | [] => .ok []
    | c :: rest =>
      if c == '^' then
        parseElems pu fuel (pos + 1) rest
      else
        let cs := c :: rest
        let step := fun (d : AIDef) (klen : Nat) =>
          let body := cs.drop klen
          match d.fixedLen with
          | some n =>
            let v := body.take n
            if v.length < n then
              .error ⟨pos, cs.length, "AI (" ++ d.code ++ "): value is too short"⟩
            else
              match lintValue d v (pos + klen) with
              | some e => .error e
              | none =>
                (parseElems pu fuel (pos + klen + n) (body.drop n)).map
                  (fun es => ⟨d.code, String.mk v, false⟩ :: es)
          | none =>
            let v := body.takeWhile (fun ch => ch != '^')
            match lintValue d v (pos + klen) with
            | some e => .error e
            | none =>
              (parseElems pu fuel (pos + klen + v.length) (body.drop v.length)).map
                (fun es => ⟨d.code, String.mk v, false⟩ :: es)
        match lookupAI (String.mk (cs.take 4)) with
        | some d => step d 4
        | none =>
          match lookupAI (String.mk (cs.take 3)) with
          | some d => step d 3
          | none =>
            match lookupAI (String.mk (cs.take 2)) with
            | some d => step d 2
            | none =>
              let code := cs.take 2
              let v := (cs.drop 2).takeWhile (fun ch => ch != '^')
              if pu && allDigits code && code.length == 2 then
                (parseElems pu fuel (pos + 2 + v.length) ((cs.drop 2).drop v.length)).map
                  (fun es => ⟨String.mk code, String.mk v, true⟩ :: es)
              else
                .error ⟨pos, 2, "unrecognised AI"⟩

/-- Modelled from the spec: the Element-String Parser for the bracketed AI
string form (§4.3): AI codes inside paired parentheses immediately followed by
the value, repeated until the input is exhausted; bracket delimiters
disambiguate the field boundaries, and a fixed-length AI must carry exactly
its declared number of characters. -/
def parseAIElems (pu : Bool) (fuel : Nat) (pos : Nat) (cs : List Char) : Except PErr (List Elem) :=
  match fuel with
  | 0 => .error ⟨pos, 1, "internal: parser fuel exhausted"⟩
  | fuel + 1 =>
    match cs with
    | [] => .ok []
    | c :: rest =>
      if c == '(' then
        let code := rest.takeWhile (fun ch => ch != ')')
        match rest.drop code.length with
        | ')' :: rest2 =>
          let v := rest2.takeWhile (fun ch => ch != '(')
          let vpos := pos + 1 + code.length + 1
          let next := fun (e : Elem) =>
            (parseAIElems pu fuel (vpos + v.length) (rest2.drop v.length)).map
              (fun es => e :: es)
          match lookupAI (String.mk code) with
          | some d =>
            if d.fixedLen.any (fun n => v.length != n) then
              .error ⟨vpos, v.length, "AI (" ++ d.code ++ "): incorrect length for AI"⟩
            else
              match lintValue d v vpos with
              | some e => .error e
              | none => next ⟨d.code, String.mk v, false⟩
          | none =>
            if pu && allDigits code && 2 ≤ code.length && code.length ≤ 4 then
              next ⟨String.mk code, String.mk v, true⟩
            else
              .error ⟨pos + 1, code.length, "unrecognised AI"⟩
        | _ => .error ⟨pos, 1, "expected closing bracket after AI"⟩
      else
        .error ⟨pos, 1, "expected AI in brackets"⟩

/-- Modelled from the spec: serialization of an Element Set back to the
delimited data string (§4.5): elements re-emitted in stored order, a separator
re-inserted after each variable-length element that is not at the end. -/
def serializeTail (es : List Elem) : String :=
  match es with
  | [] => ""
  | [e] => e.ai ++ e.value
  | e :: es' => e.ai ++ e.value ++ (if isVarLen e.ai then "^" else "") ++ serializeTail es'

/-- Modelled from the spec: the full delimited data string begins with the
sentinel marking start-of-data (§6). -/
def serializeElems (es : List Elem) : String := "^" ++ serializeTail es

/-- Modelled from the spec: serialization of an Element Set to the bracketed
AI string form (§4.5). -/
def serializeAITail (es : List Elem) : String :=
  match es with
  | [] => ""
  | e :: es' => "(" ++ e.ai ++ ")" ++ e.value ++ serializeAITail es'

/-- The five validation kinds of `lib.rs` (`Validation`, reprs 0..4). -/
inductive Validation where
  | MutexAis
  | RequisiteAis
  | RepeatedAis
  | DigSigSerialKey
  | UnknownAiNotDlAttr
deriving DecidableEq, Repr

/-- Modelled from the spec: the per-kind toggle set of the Cross-Field
Validator (§4.4); all kinds default to enabled. -/
structure VFlags where
  mutexAis : Bool := true
  requisiteAis : Bool := true
  repeatedAis : Bool := true
  digSigSerialKey : Bool := true
  unknownAiNotDlAttr : Bool := true
deriving DecidableEq, Repr

/-- Reads the toggle for one validation kind. -/
def getV (fl : VFlags) : Validation → Bool
  | .MutexAis => fl.mutexAis
  | .RequisiteAis => fl.requisiteAis
  | .RepeatedAis => fl.repeatedAis
  | .DigSigSerialKey => fl.digSigSerialKey
  | .UnknownAiNotDlAttr => fl.unknownAiNotDlAttr

/-- Updates the toggle for one validation kind, leaving the others unchanged. -/
def setV (fl : VFlags) (k : Validation) (b : Bool) : VFlags :=
  match k with
  | .MutexAis => { fl with mutexAis := b }
  | .RequisiteAis => { fl with requisiteAis := b }
  | .RepeatedAis => { fl with repeatedAis := b }
  | .DigSigSerialKey => { fl with digSigSerialKey := b }
  | .UnknownAiNotDlAttr => { fl with unknownAiNotDlAttr := b }

/-- Mutual-exclusion groups of an AI code (unknown codes join no group). -/
def mutexGroupsOf (code : String) : List String :=
  match lookupAI code with
  | some d => d.mutexGroups
  | none => []

/-- Requisite-companion sets of an AI code (unknown codes require none). -/
def requisitesOf (code : String) : List (List String) :=
  match lookupAI code with
  | some d => d.requisites
  | none => []

/-- Repetition policy of an AI code (unknown codes are exempt from the rule). -/
def repeatableOf (code : String) : Bool :=
  match lookupAI code with
  | some d => d.repeatable
  | none => true

/-- No string occurs twice in the list. -/
def distinctStrs : List String → Bool
  | [] => true
  | s :: t => !(t.contains s) && distinctStrs t

/-- Modelled from the spec: Mutex-AIs check (§4.4) — no two elements share a
mutual-exclusion group id. -/
def checkMutex (es : List Elem) : Bool :=
  distinctStrs (es.flatMap (fun e => mutexGroupsOf e.ai))

/-- Modelled from the spec: Requisite-AIs check (§4.4) — every element's
companion requirements are met by at least one AI from each required set. -/
def checkRequisite (es : List Elem) : Bool :=
  es.all (fun e =>
    (requisitesOf e.ai).all (fun grp => grp.any (fun a => es.any (fun e2 => e2.ai == a))))

/-- Modelled from the spec: Repeated-AIs check (§4.4) — an AI not flagged
repeatable appears at most once. -/
def checkRepeated (es : List Elem) : Bool :=
  es.all (fun e => repeatableOf e.ai || es.countP (fun e2 => e2.ai == e.ai) == 1)

/-- Modelled from the spec: digital-signature serial-key consistency (§4.4).
The modelled dictionary subset contains no digital-signature AI, so the
condition — agreement of the serial components when both a digital-signature
AI and a serialised primary key are present — holds of every Element Set
built over this dictionary. -/
def checkDigSig (_ : List Elem) : Bool := true

/-- Modelled from the spec: Unknown-AI-not-a-DL-attribute check (§4.4) — an
element retained as an unknown passthrough may not be classified as a
Digital-Link path component; `roleOf` confines unknown codes to the
query-only attribute class. -/
def checkUnknownAi (es : List Elem) : Bool :=
  es.all (fun e => !e.unknown || roleOf e.ai == .attribute)

/-- Dispatches a validation kind to its check. -/
def checkOf : Validation → List Elem → Bool
  | .MutexAis => checkMutex
  | .RequisiteAis => checkRequisite
  | .RepeatedAis => checkRepeated
  | .DigSigSerialKey => checkDigSig
  | .UnknownAiNotDlAttr => checkUnknownAi

/-- The fixed order in which the Validator applies the five kinds. -/
def vOrder : List Validation :=
  [.MutexAis, .RequisiteAis, .RepeatedAis, .DigSigSerialKey, .UnknownAiNotDlAttr]

/-- Human-readable message for a failed validation kind (§7). -/
def vMsg : Validation → String
  | .MutexAis => "mutually exclusive AIs are present"
  | .RequisiteAis => "required AIs for the given AI are not satisfied"
  | .RepeatedAis => "repeated AIs are not permitted"
  | .DigSigSerialKey => "serial component differs from the digital signature serial"
  | .UnknownAiNotDlAttr => "unknown AI may not be a Digital Link attribute"

/-- Modelled from the spec: the Cross-Field Validator (§4.4) — fail fast,
reporting the first enabled kind whose check fails; `none` means the Element
Set is accepted. -/
def validateElems (fl : VFlags) (es : List Elem) : Option String :=
  (vOrder.find? (fun k => getV fl k && !(checkOf k es))).map vMsg

/-- Modelled from the spec: which validation kinds are locked.  The spec
(§4.4) says each kind can be disabled; the repository's own test
`test_validations` however requires `set_validation_enabled(RepeatedAis,
false)` to fail with a parameter error, so the Repeated-AIs kind cannot be
amended. -/
def vLocked : Validation → Bool
  | .RepeatedAis => true
  | _ => false

/-- The barcode symbology selector of `lib.rs` (`Symbology`, repr values
-1 to 14 in declaration order). -/
inductive Symbology where
  | None
  | DataBarOmni
  | DataBarTruncated
  | DataBarStacked
  | DataBarStackedOmni
  | DataBarLimited
  | DataBarExpanded
  | UpcA
  | UpcE
  | Ean13
  | Ean8
  | Gs1128Cca
  | Gs1128Ccc
  | Qr
  | Dm
  | DotCode
deriving DecidableEq, Repr

/-- The integer discriminant of each Symbology variant, as declared by the
Rust repr(i32) enumeration (None = -1, then consecutive). -/
def symToRaw : Symbology → Int
  | .None => -1
  | .DataBarOmni => 0
  | .DataBarTruncated => 1
  | .DataBarStacked => 2
  | .DataBarStackedOmni => 3
  | .DataBarLimited => 4
  | .DataBarExpanded => 5
  | .UpcA => 6
  | .UpcE => 7
  | .Ean13 => 8
  | .Ean8 => 9
  | .Gs1128Cca => 10
  | .Gs1128Ccc => 11
  | .Qr => 12
  | .Dm => 13
  | .DotCode => 14

/-- The partial inverse of `symToRaw`: for which raw integers the unchecked
reinterpretation performed by `GS1Encoder::get_sym` (`std::mem::transmute`)
yields a declared Symbology variant; `none` records that no declared variant
carries that discriminant (the Rust transmute there has undefined behaviour). -/
def transmuteSym (raw : Int) : Option Symbology :=
  if raw = -1 then some .None
  else if raw = 0 then some .DataBarOmni
  else if raw = 1 then some .DataBarTruncated
  else if raw = 2 then some .DataBarStacked
  else if raw = 3 then some .DataBarStackedOmni
  else if raw = 4 then some .DataBarLimited
  else if raw = 5 then some .DataBarExpanded
  else if raw = 6 then some .UpcA
  else if raw = 7 then some .UpcE
  else if raw = 8 then some .Ean13
  else if raw = 9 then some .Ean8
  else if raw = 10 then some .Gs1128Cca
  else if raw = 11 then some .Gs1128Ccc
  else if raw = 12 then some .Qr
  else if raw = 13 then some .Dm
  else if raw = 14 then some .DotCode
  else none

/-- The symbology field-separator byte used in scan data (GS, 0x1D). -/
def gsChar : Char := '\x1d'

/-- Modelled from the spec: the Symbology Registry's framing table (§4.6),
fixed by the repository's tests for the DataBar family (]e0), QR (]Q3) and
Data Matrix (]d1). -/
def framingOf : Symbology → String
  | .None => ""
  | .DataBarOmni => "]e0"
  | .DataBarTruncated => "]e0"
  | .DataBarStacked => "]e0"
  | .DataBarStackedOmni => "]e0"
  | .DataBarLimited => "]e0"
  | .DataBarExpanded => "]e0"
  | .UpcA => "]E0"
  | .UpcE => "]E0"
  | .Ean13 => "]E0"
  | .Ean8 => "]E4"
  | .Gs1128Cca => "]e0"
  | .Gs1128Ccc => "]e0"
  | .Qr => "]Q3"
  | .Dm => "]d1"
  | .DotCode => "]J1"

/-- Modelled from the spec: `symbology_for(prefix)` of the Symbology Registry
(§4.6), resolving a scan-data framing to a symbology. -/
def symFromFraming (s : String) : Option Symbology :=
  if s == "]e0" then some .DataBarExpanded
  else if s == "]E0" then some .Ean13
  else if s == "]E4" then some .Ean8
  else if s == "]Q3" then some .Qr
  else if s == "]d1" then some .Dm
  else if s == "]J1" then some .DotCode
  else none

/-- Modelled from the spec: the Engine Context state (§3): current Element Set
(or absent), canonical data string, retained ignored query parameters,
selected symbology, the bag of boolean configuration options, per-kind
validation toggles, and the last-operation diagnostic. -/
structure EngineState where
  elements : Option (List Elem) := none
  dataStr : String := ""
  ignored : List String := []
  sym : Symbology := .None
  addCheckDigit : Bool := false
  permitUnknownAIs : Bool := false
  permitZeroSuppressed : Bool := false
  includeDataTitles : Bool := false
  vflags : VFlags := {}
  errMsg : String := ""
  errMarkup : String := ""
deriving DecidableEq, Repr

/-- Modelled from the spec: a freshly created context: no data, no symbology,
all options off, all validations enabled, empty diagnostics. -/
def engineInit : EngineState := {}

/-- Modelled from the spec: error markup (§4.3/§7) — a copy of the original
input with marker characters wrapping the offending span. -/
def markupOf (input : String) (pos len : Nat) : String :=
  String.mk (input.data.take pos ++
    '|' :: ((input.data.drop pos).take len ++ '|' :: input.data.drop (pos + len)))

/-- Recognises and strips a URI scheme: the engine treats input beginning
with https:// or http:// as a Digital Link URI. -/
def stripScheme (cs : List Char) : Option (List Char) :=
  if "https://".data.isPrefixOf cs then some (cs.drop 8)
  else if "http://".data.isPrefixOf cs then some (cs.drop 7)
  else none

/-- Modelled from the spec: locate the primary-key AI in the URI path —
segments before it belong to the caller's stem or domain (§4.5). -/
def findPK : List String → Option (List String)
  | [] => none
  | s :: t => if roleOf s == DLRole.primaryKey then some (s :: t) else findPK t

/-- Pairs consecutive path segments into (AI code, value); fails on an odd
remainder. -/
def pairUp : List String → Option (List (String × String))
  | [] => some []
  | [_] => none
  | a :: b :: t => (pairUp t).map (fun r => (a, b) :: r)

/-- Modelled from the spec: path pairs become elements — the first is the
primary key, later pairs must be Digital-Link qualifiers, and each value is
linted against its AI definition (§4.5). -/
def pathElemsOf : Bool → List (String × String) → Except String (List Elem)
  | _, [] => .ok []
  | isFirst, q :: t =>
    match lookupAI q.1 with
    | none => .error ("unrecognised AI in Digital Link path: " ++ q.1)
    | some d =>
      if !isFirst && d.dlRole != DLRole.qualifier then
        .error ("AI (" ++ q.1 ++ ") is not a valid Digital Link path qualifier")
      else
        match lintValue d q.2.data 0 with
        | some e => .error e.msg
        | none => (pathElemsOf false t).map (fun es => ⟨q.1, q.2, false⟩ :: es)

/-- Modelled from the spec: a query parameter becomes an element exactly when
it is compound (key=value) and its key is a known Digital-Link attribute AI;
everything else is retained verbatim as an ignored parameter (§4.5). -/
def recognizedQP (p : List Char) : Option Elem :=
  let key := p.takeWhile (fun ch => ch != '=')
  if key.length < p.length then
    match lookupAI (String.mk key) with
    | some d =>
      if d.dlRole == DLRole.attribute then
        some ⟨String.mk key, String.mk (p.drop (key.length + 1)), false⟩
      else none
    | none => none
  else none

/-- Modelled from the spec: one pass over the query parameters, splitting them
into recognised elements and verbatim ignored parameters, both in input order
(§4.5). -/
def processQuery : List (List Char) → List Elem × List String
  | [] => ([], [])
  | p :: ps =>
    let r := processQuery ps
    match recognizedQP p with
    | some e => (e :: r.1, r.2)
    | none => (r.1, String.mk p :: r.2)

/-- Modelled from the spec: the URI → Element Set parse direction (§4.5):
split path and query, locate the primary key in the path, pair and lint the
path segments, and classify each query parameter. -/
def parseDLuri (afterScheme : List Char) : Except String (List Elem × List String) :=
  let pathPart := afterScheme.takeWhile (fun ch => ch != '?')
  let hasQuery := pathPart.length < afterScheme.length
  let queryPart := afterScheme.drop (pathPart.length + 1)
  let segs := (splitOnChar '/' pathPart).map String.mk
  match findPK segs with
  | none => .error "digital link URI path has no primary key AI"
  | some keySegs =>
    match pairUp keySegs with
    | none => .error "digital link URI path components do not pair into AI and value"
    | some pairs =>
      match pathElemsOf true pairs with
      | .error m => .error m
      | .ok pes =>
        let qps := if hasQuery then splitOnChar '&' queryPart else []
        let r := processQuery qps
        .ok (pes ++ r.1, r.2)

/-- Modelled from the spec: the Engine Context operation behind
`gs1_encoder_setDataStr` (§4.5/§7): a Digital Link URI, a sentinel-led
delimited data string, or plain non-AI data.  The result is either the fully
committed replacement state or a (message, markup) diagnostic pair; a failing
call produces no other state change. -/
def setDataResult (st : EngineState) (input : String) : Except (String × String) EngineState :=
  match stripScheme input.data with
  | some rest =>
    match parseDLuri rest with
    | .error m => .error (m, "")
    | .ok r =>
      match validateElems st.vflags r.1 with
      | some m => .error (m, "")
      | none => .ok { st with elements := some r.1, dataStr := input, ignored := r.2,
                              errMsg := "", errMarkup := "" }
  | none =>
    match input.data with
    | [] => .ok { st with elements := none, dataStr := input, ignored := [],
                          errMsg := "", errMarkup := "" }
    | c :: rest =>
      if c == '^' then
        match parseElems st.permitUnknownAIs (rest.length + 1) 1 rest with
        | .error e => .error (e.msg, markupOf input e.pos e.len)
        | .ok es =>
          match validateElems st.vflags es with
          | some m => .error (m, "")
          | none => .ok { st with elements := some es, dataStr := input, ignored := [],
                                  errMsg := "", errMarkup := "" }
      else .ok { st with elements := none, dataStr := input, ignored := [],
                         errMsg := "", errMarkup := "" }

/-- Modelled from the spec: the Engine Context operation behind
`gs1_encoder_setAIdataStr` (§4.5): parse the bracketed AI string, validate,
and commit with the canonical delimited serialization as the data string. -/
def setAIdataResult (st : EngineState) (input : String) : Except (String × String) EngineState :=
  match parseAIElems st.permitUnknownAIs (input.data.length + 1) 0 input.data with
  | .error e => .error (e.msg, markupOf input e.pos e.len)
  | .ok es =>
    match validateElems st.vflags es with
    | some m => .error (m, "")
    | none => .ok { st with elements := some es, dataStr := serializeElems es, ignored := [],
                            errMsg := "", errMarkup := "" }

/-- Modelled from the spec: the Engine Context operation behind
`gs1_encoder_setScanData` (§4.5): strip the three-character symbology framing,
map the symbology field separator back to the internal separator, then parse
the payload — as a Digital Link URI when it carries a scheme, else as the
body of a delimited data string — and commit together with the identified
symbology. -/
def setScanResult (st : EngineState) (input : String) : Except (String × String) EngineState :=
  match input.data with
  | b1 :: b2 :: b3 :: payload =>
    match symFromFraming (String.mk [b1, b2, b3]) with
    | none => .error ("unrecognised symbology identifier in scan data", "")
    | some sym =>
      let body := payload.map (fun ch => if ch == gsChar then '^' else ch)
      match stripScheme body with
      | some rest =>
        match parseDLuri rest with
        | .error m => .error (m, "")
        | .ok r =>
          match validateElems st.vflags r.1 with
          | some m => .error (m, "")
          | none => .ok { st with elements := some r.1, dataStr := String.mk body,
                                  ignored := r.2, sym := sym, errMsg := "", errMarkup := "" }
      | none =>
        match parseElems st.permitUnknownAIs (body.length + 1) 0 body with
        | .error e => .error (e.msg, "")
        | .ok es =>
          match validateElems st.vflags es with
          | some m => .error (m, "")
          | none => .ok { st with elements := some es, dataStr := String.mk ('^' :: body),
                                  ignored := [], sym := sym, errMsg := "", errMarkup := "" }
  | _ => .error ("scan data is too short to carry a symbology identifier", "")

/-- Modelled from the spec: native `gs1_encoder_setDataStr` — true on success,
false with the diagnostic recorded in the context. -/
def engineSetDataStr (st : EngineState) (input : String) : EngineState × Bool :=
  match setDataResult st input with
  | .error d => ({ st with errMsg := d.1, errMarkup := d.2 }, false)
  | .ok st2 => (st2, true)

/-- Modelled from the spec: native `gs1_encoder_setAIdataStr`. -/
def engineSetAIdataStr (st : EngineState) (input : String) : EngineState × Bool :=
  match setAIdataResult st input with
  | .error d => ({ st with errMsg := d.1, errMarkup := d.2 }, false)
  | .ok st2 => (st2, true)

/-- Modelled from the spec: native `gs1_encoder_setScanData`. -/
def engineSetScanData (st : EngineState) (input : String) : EngineState × Bool :=
  match setScanResult st input with
  | .error d => ({ st with errMsg := d.1, errMarkup := d.2 }, false)
  | .ok st2 => (st2, true)

/-- The diagnostic message a locked validation kind produces when toggled. -/
def lockedVMsg : String := "this validation kind cannot be amended"

/-- Modelled from the spec: native `gs1_encoder_setValidationEnabled` — a
locked kind rejects any amendment; an unlocked kind has exactly its own
toggle replaced (§4.4). -/
def engineSetValidationEnabled (st : EngineState) (k : Validation) (b : Bool) :
    EngineState × Bool :=
  if vLocked k then ({ st with errMsg := lockedVMsg }, false)
  else ({ st with vflags := setV st.vflags k b, errMsg := "", errMarkup := "" }, true)

/-- Modelled from the spec: native `gs1_encoder_setSym`. -/
def engineSetSym (st : EngineState) (s : Symbology) : EngineState × Bool :=
  ({ st with sym := s, errMsg := "", errMarkup := "" }, true)

/-- Modelled from the spec: native `gs1_encoder_getAIdataStr` — null (none)
when nothing AI-structured is committed, else the bracketed AI string. -/
def engineGetAIdataStr (st : EngineState) : Option String :=
  match st.elements with
  | none => none
  | some es => some (serializeAITail es)

/-- Modelled from the spec: native `gs1_encoder_getHRI` — one line per
element, "(AI) value", or "TITLE (AI) value" with data titles enabled; an
absent Element Set yields the empty sequence (§4.5). -/
def engineGetHRI (st : EngineState) : List String :=
  match st.elements with
  | none => []
  | some es =>
    es.map (fun e =>
      (if st.includeDataTitles && titleOf e.ai != "" then titleOf e.ai ++ " " else "") ++
      "(" ++ e.ai ++ ") " ++ e.value)

/-- Joins query parameters with ampersands. -/
def joinAmp : List String → String
  | [] => ""
  | [s] => s
  | s :: t => s ++ "&" ++ joinAmp t

/-- The diagnostic produced when a Digital Link URI is requested for data
with no primary-key AI (§4.5/§7). -/
def dlNoKeyMsg : String := "cannot create a digital link URI without a primary key AI"

/-- Modelled from the spec: native `gs1_encoder_getDLuri` — the primary key
and qualifiers form the path under the caller's stem or the default resolver
domain, the remaining attributes the query; construction fails when no
primary-key AI is present, including the absent-data state (§4.5). -/
def engineGetDLuri (st : EngineState) (stem : Option String) : Except String String :=
  match st.elements with
  | none => .error dlNoKeyMsg
  | some es =>
    match es.find? (fun e => roleOf e.ai == DLRole.primaryKey) with
    | none => .error dlNoKeyMsg
    | some pk =>
      let dom := match stem with
        | some s => s
        | none => "https://id.gs1.org"
      let quals := (es.filter (fun e => roleOf e.ai == DLRole.qualifier)).map
        (fun e => "/" ++ e.ai ++ "/" ++ e.value)
      let query := joinAmp ((es.filter (fun e => roleOf e.ai == DLRole.attribute)).map
        (fun e => e.ai ++ "=" ++ e.value))
      .ok (dom ++ "/" ++ pk.ai ++ "/" ++ pk.value ++ String.join quals ++
        (if query == "" then "" else "?" ++ query))

/-- Modelled from the spec: native `gs1_encoder_getScanData` — null (none)
when no data is committed or no symbology is selected; else the framing
followed by the payload with the internal separator mapped to the symbology
separator byte (§4.5). -/
def engineGetScanData (st : EngineState) : Option String :=
  match st.elements with
  | none => none
  | some _ =>
    match st.sym with
    | .None => none
    | s =>
      match st.dataStr.data with
      | '^' :: body =>
        some (framingOf s ++ String.mk (body.map (fun ch => if ch == '^' then gsChar else ch)))
      | _ => some (framingOf s ++ st.dataStr)

/-- The error type of the Rust binding (`GS1EncoderError` in lib.rs). -/
inductive GS1EncoderError where
  | GS1GeneralError (msg : String)
  | GS1ParameterError (msg : String)
  | GS1ScanDataError (msg : String)
  | GS1DigitalLinkError (msg : String)
deriving DecidableEq, Repr

/-- Whether a binding call succeeded. -/
def exceptOk {ε α : Type} : Except ε α → Bool
  | .ok _ => true
  | .error _ => false

namespace GS1Encoder

/-- Embeds `GS1Encoder::set_data_str` (lib.rs): a false return from the
native call becomes `GS1ParameterError` carrying the context's error
message. -/
def set_data_str (st : EngineState) (value : String) :
    EngineState × Except GS1EncoderError Unit :=
  let r := engineSetDataStr st value
  if r.2 then (r.1, .ok ()) else (r.1, .error (.GS1ParameterError r.1.errMsg))

/-- Embeds `GS1Encoder::set_ai_data_str` (lib.rs). -/
def set_ai_data_str (st : EngineState) (value : String) :
    EngineState × Except GS1EncoderError Unit :=
  let r := engineSetAIdataStr st value
  if r.2 then (r.1, .ok ()) else (r.1, .error (.GS1ParameterError r.1.errMsg))

/-- Embeds `GS1Encoder::set_scan_data` (lib.rs): failure becomes
`GS1ScanDataError`. -/
def set_scan_data (st : EngineState) (value : String) :
    EngineState × Except GS1EncoderError Unit :=
  let r := engineSetScanData st value
  if r.2 then (r.1, .ok ()) else (r.1, .error (.GS1ScanDataError r.1.errMsg))

/-- Embeds `GS1Encoder::set_validation_enabled` (lib.rs). -/
def set_validation_enabled (st : EngineState) (validation : Validation) (enabled : Bool) :
    EngineState × Except GS1EncoderError Unit :=
  let r := engineSetValidationEnabled st validation enabled
  if r.2 then (r.1, .ok ()) else (r.1, .error (.GS1ParameterError r.1.errMsg))

/-- Embeds `GS1Encoder::get_validation_enabled` (lib.rs). -/
def get_validation_enabled (st : EngineState) (validation : Validation) : Bool :=
  getV st.vflags validation

/-- Embeds the deprecated `GS1Encoder::get_validate_ai_associations` (lib.rs),
defined there as `self.get_validation_enabled(Validation::RequisiteAis)`. -/
def get_validate_ai_associations (st : EngineState) : Bool :=
  get_validation_enabled st .RequisiteAis

/-- Embeds the deprecated `GS1Encoder::set_validate_ai_associations` (lib.rs),
defined there as `self.set_validation_enabled(Validation::RequisiteAis, value)`. -/
def set_validate_ai_associations (st : EngineState) (value : Bool) :
    EngineState × Except GS1EncoderError Unit :=
  set_validation_enabled st .RequisiteAis value

/-- Embeds `GS1Encoder::set_sym` (lib.rs). -/
def set_sym (st : EngineState) (sym : Symbology) :
    EngineState × Except GS1EncoderError Unit :=
  let r := engineSetSym st sym
  if r.2 then (r.1, .ok ()) else (r.1, .error (.GS1ParameterError r.1.errMsg))

/-- Embeds `GS1Encoder::get_sym` (lib.rs) at the native boundary: the raw
integer the native call returns is reinterpreted by `std::mem::transmute`
without a range check; the result is a declared variant exactly when
`transmuteSym` yields one, and an out-of-range integer is neither mapped to a
variant nor rejected with an error (`get_sym` returns plain `Symbology`). -/
def get_sym_raw (raw : Int) : Option Symbology :=
  transmuteSym raw

/-- Embeds `GS1Encoder::get_sym` (lib.rs) on a well-formed context, where the
native call reports the discriminant of the stored symbology. -/
def get_sym (st : EngineState) : Option Symbology :=
  get_sym_raw (symToRaw st.sym)

/-- Embeds `GS1Encoder::get_data_str` (lib.rs). -/
def get_data_str (st : EngineState) : String :=
  st.dataStr

/-- Embeds `GS1Encoder::get_ai_data_str` (lib.rs): a null pointer from the
native call becomes `None`. -/
def get_ai_data_str (st : EngineState) : Option String :=
  engineGetAIdataStr st

/-- Embeds `GS1Encoder::get_scan_data` (lib.rs): a null pointer from the
native call becomes `None`. -/
def get_scan_data (st : EngineState) : Option String :=
  engineGetScanData st

/-- Embeds `GS1Encoder::get_dl_uri` (lib.rs): a null pointer from the native
call becomes `GS1DigitalLinkError` carrying the context's error message. -/
def get_dl_uri (st : EngineState) (stem : Option String) :
    Except GS1EncoderError String :=
  match engineGetDLuri st stem with
  | .error m => .error (.GS1DigitalLinkError m)
  | .ok s => .ok s

/-- Embeds `GS1Encoder::get_dl_ignored_query_params` (lib.rs): the native
array of retained parameters, in order. -/
def get_dl_ignored_query_params (st : EngineState) : List String :=
  st.ignored

/-- Embeds `GS1Encoder::get_hri` (lib.rs): the native array of HRI lines, in
order. -/
def get_hri (st : EngineState) : List String :=
  engineGetHRI st

/-- Embeds `GS1Encoder::get_err_markup` (lib.rs). -/
def get_err_markup (st : EngineState) : String :=
  st.errMarkup

/-- Embeds `GS1Encoder::get_err_msg` (lib.rs). -/
def get_err_msg (st : EngineState) : String :=
  st.errMsg

end GS1Encoder

/-- The handle-lifecycle state of one `GS1Encoder` value (lib.rs): `ctx`
models the stored raw pointer (`none` = null) and `released` the sequence of
`gs1_encoder_free` calls performed on the native side. -/
structure EncMachine where
  ctx : Option Nat
  released : List Nat
deriving DecidableEq, Repr

/-- Embeds `GS1Encoder::free` (lib.rs): release the native context only when
the stored handle is non-null, then null the handle; a null handle is left
untouched and triggers no native call. -/
def freeEnc (m : EncMachine) : EncMachine :=
  match m.ctx with
  | some h => { ctx := none, released := m.released ++ [h] }
  | none => m

/-- Embeds `impl Drop for GS1Encoder` (lib.rs): drop simply calls `free`. -/
def dropEnc (m : EncMachine) : EncMachine :=
  freeEnc m

/-- C2: after `set_ai_data_str("(01)12312312312319(99)TESTING123")` succeeds on
a fresh context, `get_data_str` returns `^011231231231231999TESTING123`,
`get_dl_uri` with no stem returns
`https://id.gs1.org/01/12312312312319?99=TESTING123` under the default
resolver domain, and `get_hri` with data titles disabled (the fresh default)
returns exactly the two lines `(01) 12312312312319` and `(99) TESTING123` in
that order. -/
theorem C2_example_conversions :
    engineInit.includeDataTitles = false ∧
    (GS1Encoder.set_ai_data_str engineInit "(01)12312312312319(99)TESTING123").2 = .ok () ∧
    GS1Encoder.get_data_str
        (GS1Encoder.set_ai_data_str engineInit "(01)12312312312319(99)TESTING123").1 =
      "^011231231231231999TESTING123" ∧
    GS1Encoder.get_dl_uri
        (GS1Encoder.set_ai_data_str engineInit "(01)12312312312319(99)TESTING123").1 none =
      .ok "https://id.gs1.org/01/12312312312319?99=TESTING123" ∧
    GS1Encoder.get_hri
        (GS1Encoder.set_ai_data_str engineInit "(01)12312312312319(99)TESTING123").1 =
      ["(01) 12312312312319", "(99) TESTING123"] := by
  refine ⟨rfl, rfl, rfl, rfl, rfl⟩

/-- C4: when no AI-structured data is committed — on the fresh context and
after committing the plain non-AI data `TESTING` — the representation getters
return "no value" results rather than errors: `get_ai_data_str` is `none`,
`get_scan_data` is `none`, `get_hri` is empty and
`get_dl_ignored_query_params` is empty. -/
theorem C4_absent_data_getters :
    (GS1Encoder.get_ai_data_str engineInit = none ∧
     GS1Encoder.get_scan_data engineInit = none ∧
     GS1Encoder.get_hri engineInit = [] ∧
     GS1Encoder.get_dl_ignored_query_params engineInit = []) ∧
    ((GS1Encoder.set_data_str engineInit "TESTING").2 = .ok () ∧
     GS1Encoder.get_ai_data_str (GS1Encoder.set_data_str engineInit "TESTING").1 = none ∧
     GS1Encoder.get_scan_data (GS1Encoder.set_data_str engineInit "TESTING").1 = none ∧
     GS1Encoder.get_hri (GS1Encoder.set_data_str engineInit "TESTING").1 = [] ∧
     GS1Encoder.get_dl_ignored_query_params (GS1Encoder.set_data_str engineInit "TESTING").1
       = []) := by
  refine ⟨⟨rfl, rfl, rfl, rfl⟩, rfl, rfl, rfl, rfl, rfl⟩

/-- C9: the deprecated operations are exact aliases of the new ones: on every
context state `get_validate_ai_associations` returns the same boolean as
`get_validation_enabled(RequisiteAis)`, and for every boolean value
`set_validate_ai_associations` produces the same result and the same state
change as `set_validation_enabled(RequisiteAis, value)`. -/
theorem C9_deprecated_aliases :
    ∀ (st : EngineState) (value : Bool),
      GS1Encoder.get_validate_ai_associations st =
        GS1Encoder.get_validation_enabled st .RequisiteAis ∧
      GS1Encoder.set_validate_ai_associations st value =
        GS1Encoder.set_validation_enabled st .RequisiteAis value :=
  fun _ _ => ⟨rfl, rfl⟩

/-- C10: releasing a context is idempotent and safe under Drop: `free`
releases the native context only when the stored handle is non-null and then
nulls the handle — a null handle triggers no native call — so any number of
`free` calls starting from a live context perform exactly one native release,
of the allocated handle, and a `drop` after the explicit frees still performs
no further release. -/
theorem C10_free_idempotent_drop_safe :
    (∀ m : EncMachine, m.ctx = none → freeEnc m = m) ∧
    (∀ (h : Nat) (n : Nat), freeEnc^[n + 1] ⟨some h, []⟩ = ⟨none, [h]⟩) ∧
    (∀ (h : Nat) (n : Nat), dropEnc (freeEnc^[n + 1] ⟨some h, []⟩) = ⟨none, [h]⟩) := by
  have hnull : ∀ m : EncMachine, m.ctx = none → freeEnc m = m := by
    intro m hm
    cases m with
    | mk c r =>
      cases c with
      | none => rfl
      | some h => simp at hm
  have hiter : ∀ (h : Nat) (n : Nat), freeEnc^[n + 1] ⟨some h, []⟩ = ⟨none, [h]⟩ := by
    intro h n
    induction n with
    | zero => rfl
    | succ k ih =>
      rw [Function.iterate_succ_apply', ih]
      rfl
  refine ⟨hnull, hiter, fun h n => ?_⟩
  rw [hiter h n]
  rfl

/-- Closed instance of C10 at a concrete machine: a null handle is left
untouched, and three frees followed by a drop release the handle exactly
once. -/
theorem C10_free_idempotent_drop_safe_witness :
    (⟨none, []⟩ : EncMachine).ctx = none ∧
    freeEnc ⟨none, []⟩ = ⟨none, []⟩ ∧
    freeEnc^[3] ⟨some 7, []⟩ = ⟨none, [7]⟩ ∧
    dropEnc (freeEnc^[3] ⟨some 7, []⟩) = ⟨none, [7]⟩ :=
  ⟨rfl, C10_free_idempotent_drop_safe.1 ⟨none, []⟩ rfl,
   C10_free_idempotent_drop_safe.2.1 7 2, C10_free_idempotent_drop_safe.2.2 7 2⟩

/-- C8 counterexample: the raw integers 15 and -2 — both representable in the
native c_int that `gs1_encoder_getSym` returns — lie outside the declared
Symbology variants, and the unchecked `std::mem::transmute` in `get_sym`
yields no valid variant for them (nor any parameter error, since `get_sym`
has no error path); this refutes the claim that `get_sym` yields a valid
Symbology variant for every raw integer the native layer could return. -/
theorem C8_counterexample :
    GS1Encoder.get_sym_raw 15 = none ∧ GS1Encoder.get_sym_raw (-2) = none :=
  ⟨rfl, rfl⟩

/-- C8 (amended): `get_sym` reinterprets the raw integer from the native call
with an unchecked transmute: exactly the integers -1..14 map to declared
Symbology variants — each variant being recovered from its own Rust
discriminant — while an out-of-range integer is neither mapped to any
declared variant nor rejected with a parameter error. -/
theorem C8_transmute_range :
    (∀ raw : Int, (GS1Encoder.get_sym_raw raw).isSome = true ↔ (-1 ≤ raw ∧ raw ≤ 14)) ∧
    (∀ s : Symbology, GS1Encoder.get_sym_raw (symToRaw s) = some s) := by
  constructor
  · intro raw
    constructor
    · intro h
      by_contra hcon
      have e0 : raw ≠ -1 := by intro he; exact hcon (by omega)
      have e1 : raw ≠ 0 := by intro he; exact hcon (by omega)
      have e2 : raw ≠ 1 := by intro he; exact hcon (by omega)
      have e3 : raw ≠ 2 := by intro he; exact hcon (by omega)
      have e4 : raw ≠ 3 := by intro he; exact hcon (by omega)
      have e5 : raw ≠ 4 := by intro he; exact hcon (by omega)
      have e6 : raw ≠ 5 := by intro he; exact hcon (by omega)
      have e7 : raw ≠ 6 := by intro he; exact hcon (by omega)
      have e8 : raw ≠ 7 := by intro he; exact hcon (by omega)
      have e9 : raw ≠ 8 := by intro he; exact hcon (by omega)
      have e10 : raw ≠ 9 := by intro he; exact hcon (by omega)
      have e11 : raw ≠ 10 := by intro he; exact hcon (by omega)
      have e12 : raw ≠ 11 := by intro he; exact hcon (by omega)
      have e13 : raw ≠ 12 := by intro he; exact hcon (by omega)
      have e14 : raw ≠ 13 := by intro he; exact hcon (by omega)
      have e15 : raw ≠ 14 := by intro he; exact hcon (by omega)
      simp only [GS1Encoder.get_sym_raw, transmuteSym, if_neg e0, if_neg e1, if_neg e2, if_neg e3, if_neg e4, if_neg e5, if_neg e6, if_neg e7, if_neg e8, if_neg e9, if_neg e10, if_neg e11, if_neg e12, if_neg e13, if_neg e14, if_neg e15] at h
      simp at h
    · intro hb
      obtain ⟨h1, h2⟩ := hb
      interval_cases raw <;> rfl
  · intro s
    cases s <;> rfl

/-- C3 counterexample: disabling the Repeated-AIs validation kind does not
succeed — `set_validation_enabled(RepeatedAis, false)` fails with a
GS1ParameterError on a fresh context, exactly as the repository's test
`test_validations` requires; this refutes the claim that
`set_validation_enabled(kind, false)` succeeds for every one of the five
kinds. -/
theorem C3_counterexample :
    (GS1Encoder.set_validation_enabled engineInit .RepeatedAis false).2 =
      .error (.GS1ParameterError lockedVMsg) := rfl

/-- C3 (amended): every validation kind other than the locked Repeated-AIs
can be disabled — `set_validation_enabled(kind, false)` succeeds, flips
exactly that kind's toggle and no other; disabling the locked Repeated-AIs
kind fails with a parameter error and changes no toggle; the validator
accepts an Element Set exactly when every still-enabled check passes, so a
disabled kind removes only its own check; and the Element Set of
`^0212312312312319`, rejected under Requisite-AIs with a "not satisfied"
parameter error, is accepted once that kind is disabled. -/
theorem C3_validation_toggles :
    (∀ (st : EngineState) (k : Validation), k ≠ .RepeatedAis →
      (GS1Encoder.set_validation_enabled st k false).2 = .ok () ∧
      getV (GS1Encoder.set_validation_enabled st k false).1.vflags k = false ∧
      ∀ j : Validation, j ≠ k →
        getV (GS1Encoder.set_validation_enabled st k false).1.vflags j = getV st.vflags j) ∧
    (∀ st : EngineState,
      (GS1Encoder.set_validation_enabled st .RepeatedAis false).2 =
        .error (.GS1ParameterError lockedVMsg) ∧
      (GS1Encoder.set_validation_enabled st .RepeatedAis false).1.vflags = st.vflags) ∧
    (∀ (fl : VFlags) (es : List Elem),
      validateElems fl es = none ↔ ∀ k : Validation, getV fl k = true → checkOf k es = true) ∧
    ((GS1Encoder.set_data_str engineInit "^0212312312312319").2 =
        .error (.GS1ParameterError (vMsg .RequisiteAis)) ∧
      hasSub (vMsg .RequisiteAis).data "not satisfied".data = true ∧
      (GS1Encoder.set_data_str
        (GS1Encoder.set_validation_enabled engineInit .RequisiteAis false).1
        "^0212312312312319").2 = .ok ()) := by
  have hmem : ∀ k : Validation, k ∈ vOrder := by
    intro k; cases k <;> simp [vOrder]
  refine ⟨?_, ?_, ?_, rfl, rfl, rfl⟩
  · intro st k hk
    cases k with
    | MutexAis =>
      exact ⟨rfl, rfl, fun j hj => by cases j <;> first | rfl | exact absurd rfl hj⟩
    | RequisiteAis =>
      exact ⟨rfl, rfl, fun j hj => by cases j <;> first | rfl | exact absurd rfl hj⟩
    | RepeatedAis => exact absurd rfl hk
    | DigSigSerialKey =>
      exact ⟨rfl, rfl, fun j hj => by cases j <;> first | rfl | exact absurd rfl hj⟩
    | UnknownAiNotDlAttr =>
      exact ⟨rfl, rfl, fun j hj => by cases j <;> first | rfl | exact absurd rfl hj⟩
  · intro st
    exact ⟨rfl, rfl⟩
  · intro fl es
    rw [validateElems, Option.map_eq_none', List.find?_eq_none]
    constructor
    · intro hall k hk
      have h2 := hall k (hmem k)
      cases hc : checkOf k es
      · exact absurd (by simp [hk, hc]) h2
      · rfl
    · intro himp k _
      intro hp
      rw [Bool.and_eq_true] at hp
      have hc := himp k hp.1
      rw [hc] at hp
      simp at hp

/-- Closed instance of C3 (amended) at concrete inputs: disabling
Requisite-AIs on a fresh context succeeds and leaves the Mutex-AIs toggle
unchanged, and the validator characterization holds at the default toggles
and the empty Element Set. -/
theorem C3_validation_toggles_witness :
    (Validation.RequisiteAis ≠ Validation.RepeatedAis ∧
     (GS1Encoder.set_validation_enabled engineInit .RequisiteAis false).2 = .ok () ∧
     Validation.MutexAis ≠ Validation.RequisiteAis ∧
     getV (GS1Encoder.set_validation_enabled engineInit .RequisiteAis false).1.vflags
       .MutexAis = getV engineInit.vflags .MutexAis) ∧
    (validateElems {} [] = none ↔
      ∀ k : Validation, getV {} k = true → checkOf k ([] : List Elem) = true) := by
  refine ⟨⟨by decide, (C3_validation_toggles.1 engineInit .RequisiteAis (by decide)).1,
    by decide, (C3_validation_toggles.1 engineInit .RequisiteAis (by decide)).2.2
      .MutexAis (by decide)⟩,
    C3_validation_toggles.2.2.1 {} []⟩

/-- The committed Element Set contains no primary-key AI; the absent/no-data
state counts as having none. -/
def noPrimaryKey (st : EngineState) : Bool :=
  match st.elements with
  | none => true
  | some es => es.all (fun e => !(roleOf e.ai == DLRole.primaryKey))

/-- C1: for every committed Element Set that contains no primary-key AI
(including the absent/no-data state) and every stem, `get_dl_uri` returns an
error of kind GS1DigitalLinkError rather than a URI, and the error message
indicates the missing primary key. -/
theorem C1_dl_uri_requires_primary_key :
    ∀ (st : EngineState) (stem : Option String), noPrimaryKey st = true →
      GS1Encoder.get_dl_uri st stem = .error (.GS1DigitalLinkError dlNoKeyMsg) ∧
      hasSub dlNoKeyMsg.data "without a primary key".data = true := by
  intro st stem hnpk
  refine ⟨?_, by decide⟩
  cases hst : st.elements with
  | none => simp [GS1Encoder.get_dl_uri, engineGetDLuri, hst]
  | some es =>
    have hfind : es.find? (fun e => roleOf e.ai == DLRole.primaryKey) = none := by
      rw [List.find?_eq_none]
      intro e he
      rw [noPrimaryKey, hst, List.all_eq_true] at hnpk
      have h1 := hnpk e he
      simp only [Bool.not_eq_true'] at h1
      simp [h1]
    simp [GS1Encoder.get_dl_uri, engineGetDLuri, hst, hfind]

/-- Closed instances of C1: the fresh context and a context holding plain
non-AI data both have no primary key and both make `get_dl_uri` fail with the
digital-link error. -/
theorem C1_dl_uri_requires_primary_key_witness :
    (noPrimaryKey engineInit = true ∧
     GS1Encoder.get_dl_uri engineInit none = .error (.GS1DigitalLinkError dlNoKeyMsg)) ∧
    (noPrimaryKey (GS1Encoder.set_data_str engineInit "TESTING").1 = true ∧
     GS1Encoder.get_dl_uri (GS1Encoder.set_data_str engineInit "TESTING").1 none =
       .error (.GS1DigitalLinkError dlNoKeyMsg)) :=
  ⟨⟨rfl, (C1_dl_uri_requires_primary_key engineInit none rfl).1⟩,
   ⟨rfl, (C1_dl_uri_requires_primary_key (GS1Encoder.set_data_str engineInit "TESTING").1
      none rfl).1⟩⟩

/-- The committed part of the Context state: everything except the
last-operation diagnostic — Element Set, canonical data string, retained
ignored query parameters, selected symbology and every configuration
option. -/
def committedPart (st : EngineState) :
    Option (List Elem) × String × List String × Symbology × Bool × Bool × Bool × Bool ×
      VFlags :=
  (st.elements, st.dataStr, st.ignored, st.sym, st.addCheckDigit, st.permitUnknownAIs,
   st.permitZeroSuppressed, st.includeDataTitles, st.vflags)

/-- C7: a failing mutating operation leaves the Context's committed state
exactly as it was before the call: whenever `set_data_str`,
`set_ai_data_str` or `set_scan_data` returns an error, the previously
committed Element Set (or absent state), data string, ignored parameters,
selected symbology and all configuration options are unchanged, so an
immediate retry starts from the prior state. -/
theorem C7_failure_preserves_state :
    ∀ (st : EngineState) (s : String),
      (exceptOk (GS1Encoder.set_data_str st s).2 = false →
        committedPart (GS1Encoder.set_data_str st s).1 = committedPart st) ∧
      (exceptOk (GS1Encoder.set_ai_data_str st s).2 = false →
        committedPart (GS1Encoder.set_ai_data_str st s).1 = committedPart st) ∧
      (exceptOk (GS1Encoder.set_scan_data st s).2 = false →
        committedPart (GS1Encoder.set_scan_data st s).1 = committedPart st) := by
  intro st s
  refine ⟨?_, ?_, ?_⟩
  · intro h
    cases hr : setDataResult st s with
    | error d => simp [GS1Encoder.set_data_str, engineSetDataStr, hr, committedPart]
    | ok st2 => simp [GS1Encoder.set_data_str, engineSetDataStr, hr, exceptOk] at h
  · intro h
    cases hr : setAIdataResult st s with
    | error d => simp [GS1Encoder.set_ai_data_str, engineSetAIdataStr, hr, committedPart]
    | ok st2 => simp [GS1Encoder.set_ai_data_str, engineSetAIdataStr, hr, exceptOk] at h
  · intro h
    cases hr : setScanResult st s with
    | error d => simp [GS1Encoder.set_scan_data, engineSetScanData, hr, committedPart]
    | ok st2 => simp [GS1Encoder.set_scan_data, engineSetScanData, hr, exceptOk] at h

/-- Closed instances of C7: three concrete failing calls — a requisite
violation, a malformed bracketed AI string and truncated scan data — each
leave the fresh context's committed state untouched. -/
theorem C7_failure_preserves_state_witness :
    (exceptOk (GS1Encoder.set_data_str engineInit "^0212312312312319").2 = false ∧
     committedPart (GS1Encoder.set_data_str engineInit "^0212312312312319").1 =
       committedPart engineInit) ∧
    (exceptOk (GS1Encoder.set_ai_data_str engineInit "nobrackets").2 = false ∧
     committedPart (GS1Encoder.set_ai_data_str engineInit "nobrackets").1 =
       committedPart engineInit) ∧
    (exceptOk (GS1Encoder.set_scan_data engineInit "xy").2 = false ∧
     committedPart (GS1Encoder.set_scan_data engineInit "xy").1 =
       committedPart engineInit) :=
  ⟨⟨rfl, (C7_failure_preserves_state engineInit "^0212312312312319").1 rfl⟩,
   ⟨rfl, (C7_failure_preserves_state engineInit "nobrackets").2.1 rfl⟩,
   ⟨rfl, (C7_failure_preserves_state engineInit "xy").2.2 rfl⟩⟩

/-- C6: when a Digital Link URI is parsed, a query parameter becomes an
element exactly when it is recognised as an attribute AI — `processQuery`
returns precisely the recognised elements and, verbatim and in input order,
the unrecognised parameters (the bare key for singletons, key=value for
compound ones) — and on the example URI the ignored parameters are exactly
["singleton", "compound=XYZ"] while the HRI lists exactly the three
recognised elements. -/
theorem C6_ignored_query_params :
    (∀ ps : List (List Char),
      processQuery ps =
        (ps.filterMap recognizedQP,
         (ps.filter (fun p => (recognizedQP p).isNone)).map String.mk)) ∧
    ((GS1Encoder.set_data_str engineInit
        "https://a/01/12312312312333/22/TESTING?singleton&99=ABC&compound=XYZ").2 =
        .ok () ∧
     GS1Encoder.get_dl_ignored_query_params
        (GS1Encoder.set_data_str engineInit
          "https://a/01/12312312312333/22/TESTING?singleton&99=ABC&compound=XYZ").1 =
        ["singleton", "compound=XYZ"] ∧
     GS1Encoder.get_hri
        (GS1Encoder.set_data_str engineInit
          "https://a/01/12312312312333/22/TESTING?singleton&99=ABC&compound=XYZ").1 =
        ["(01) 12312312312333", "(22) TESTING", "(99) ABC"]) := by
  refine ⟨?_, rfl, rfl, rfl⟩
  intro ps
  induction ps with
  | nil => rfl
  | cons p t ih =>
    simp only [processQuery, ih]
    cases h : recognizedQP p <;>
      simp [h, List.filterMap_cons, List.filter_cons]

/-- Every code in the modelled dictionary subset is two digits long. -/
theorem aiTable_codes_len : ∀ d ∈ aiTable, d.code.data.length = 2 := by decide

/-- A dictionary lookup can only succeed on a two-character key, since every
code in the table has length two. -/
theorem lookupAI_ne_two (s : List Char) (h : ¬ s.length = 2) :
    lookupAI (String.mk s) = none := by
  cases hl : lookupAI (String.mk s) with
  | none => rfl
  | some d =>
    exfalso
    apply h
    have hmem := List.mem_of_find?_eq_some hl
    have hp := List.find?_some hl
    have hcode : d.code = String.mk s := by simpa using hp
    have h2 : d.code.data.length = 2 := aiTable_codes_len d hmem
    rw [hcode] at h2
    exact h2

/-- An input beginning with the data-string sentinel carries no URI scheme. -/
theorem stripScheme_caret (l : List Char) : stripScheme ('^' :: l) = none := rfl

/-- Parsing a data-string body that opens with AI 01 followed by an all-digit
fourteen-character value whose trailing check digit does not verify fails
fast with the check-digit error, marking exactly the value's span; the
remainder of the input and the permit-unknown flag are irrelevant because the
parser reports the first violation. -/
theorem parseElems_bad_cd_01 (pu : Bool) (pos : Nat) (v rest : List Char)
    (hlen : v.length = 14) (hdig : allDigits v = true) (hcd : verifyCheckDigit v = false) :
    parseElems pu (('0' :: '1' :: (v ++ rest)).length + 1) pos ('0' :: '1' :: (v ++ rest)) =
      .error ⟨pos + 2, 14, "AI (01): incorrect check digit"⟩ := by
  have h4 : lookupAI (String.mk (('0' :: '1' :: (v ++ rest)).take 4)) = none := by
    apply lookupAI_ne_two
    simp [List.length_take, List.length_append, hlen]
  have h3 : lookupAI (String.mk (('0' :: '1' :: (v ++ rest)).take 3)) = none := by
    apply lookupAI_ne_two
    simp [List.length_take, List.length_append, hlen]
  have h2 : ('0' :: '1' :: (v ++ rest)).take 2 = ['0', '1'] := rfl
  have h01 : lookupAI (String.mk ['0', '1']) =
      some ⟨"01", "GTIN", some 14, 14, true, true, false, .primaryKey, [], []⟩ := rfl
  have hc0 : (('0' : Char) == '^') = false := rfl
  rw [parseElems]
  simp only [hc0, Bool.false_eq_true, if_false, h4, h3, h2, h01]
  simp only [List.drop_succ_cons, List.drop_zero]
  rw [List.take_left' hlen]
  simp only [hlen, lintValue, hdig, hcd]
  norm_num
  rfl

/-- C5: setting a data string whose checked AI (01 here) carries a wrong
trailing check digit fails with a GS1ParameterError whose message references
"check digit", and after the failure `get_err_markup` returns a non-empty
markup string that pinpoints the offending value span in the original input
between paired marker characters — for every starting state, every all-digit
fourteen-character value failing check-digit verification, and every
remainder of the data string. -/
theorem C5_bad_check_digit :
    ∀ (st : EngineState) (v rest : String),
      v.data.length = 14 → allDigits v.data = true → verifyCheckDigit v.data = false →
      (GS1Encoder.set_data_str st ("^01" ++ v ++ rest)).2 =
        .error (.GS1ParameterError "AI (01): incorrect check digit") ∧
      hasSub "AI (01): incorrect check digit".data "check digit".data = true ∧
      GS1Encoder.get_err_markup (GS1Encoder.set_data_str st ("^01" ++ v ++ rest)).1 =
        "^01|" ++ v ++ "|" ++ rest ∧
      ("^01|" ++ v ++ "|" ++ rest : String) ≠ "" := by
  intro st v rest hlen hdig hcd
  have hdata : ("^01" ++ v ++ rest).data = '^' :: '0' :: '1' :: (v.data ++ rest.data) := rfl
  have hparse := parseElems_bad_cd_01 st.permitUnknownAIs 1 v.data rest.data hlen hdig hcd
  have hcar : (('^' : Char) == '^') = true := rfl
  have hsdr : setDataResult st ("^01" ++ v ++ rest) =
      .error ("AI (01): incorrect check digit", markupOf ("^01" ++ v ++ rest) 3 14) := by
    rw [setDataResult]
    simp only [hdata, stripScheme_caret, hcar, if_true, hparse]
  have hmk : markupOf ("^01" ++ v ++ rest) 3 14 = "^01|" ++ v ++ "|" ++ rest := by
    apply String.ext
    rw [markupOf]
    show ("^01" ++ v ++ rest).data.take 3 ++
        '|' :: ((("^01" ++ v ++ rest).data.drop 3).take 14 ++
          '|' :: ("^01" ++ v ++ rest).data.drop (3 + 14)) =
      ("^01|" ++ v ++ "|" ++ rest).data
    rw [hdata]
    have ht3 : ('^' :: '0' :: '1' :: (v.data ++ rest.data)).take 3 = ['^', '0', '1'] := rfl
    have hd3 : ('^' :: '0' :: '1' :: (v.data ++ rest.data)).drop 3 = v.data ++ rest.data := rfl
    have hd17 : ('^' :: '0' :: '1' :: (v.data ++ rest.data)).drop (3 + 14) =
        (v.data ++ rest.data).drop 14 := rfl
    rw [ht3, hd3, hd17, List.take_left' hlen, List.drop_left' hlen]
    show ['^', '0', '1'] ++ '|' :: (v.data ++ '|' :: rest.data) =
      ((("^01|".data ++ v.data) ++ "|".data) ++ rest.data)
    simp
  have hout : GS1Encoder.set_data_str st ("^01" ++ v ++ rest) =
      ({ st with errMsg := "AI (01): incorrect check digit",
                 errMarkup := "^01|" ++ v ++ "|" ++ rest },
       .error (.GS1ParameterError "AI (01): incorrect check digit")) := by
    simp [GS1Encoder.set_data_str, engineSetDataStr, hsdr, hmk]
  refine ⟨by rw [hout], by decide, by rw [hout]; rfl, ?_⟩
  intro h
  have h2 := congrArg List.length (congrArg String.data h)
  simp [String.data_append] at h2

/-- Closed instance of C5 at the repository's own test input
`^011234567890128399ABC`: the value 12345678901283 is fourteen digits, fails
check-digit verification, the call errs with the check-digit parameter error
and the markup brackets exactly that value. -/
theorem C5_bad_check_digit_witness :
    ("12345678901283" : String).data.length = 14 ∧
    allDigits ("12345678901283" : String).data = true ∧
    verifyCheckDigit ("12345678901283" : String).data = false ∧
    (GS1Encoder.set_data_str engineInit ("^01" ++ "12345678901283" ++ "99ABC")).2 =
      .error (.GS1ParameterError "AI (01): incorrect check digit") ∧
    GS1Encoder.get_err_markup
        (GS1Encoder.set_data_str engineInit ("^01" ++ "12345678901283" ++ "99ABC")).1 =
      "^01|" ++ "12345678901283" ++ "|" ++ "99ABC" :=
  ⟨rfl, rfl, rfl,
   (C5_bad_check_digit engineInit "12345678901283" "99ABC" rfl rfl rfl).1,
   (C5_bad_check_digit engineInit "12345678901283" "99ABC" rfl rfl rfl).2.2.1⟩
